import Mathlib

/-!
Verification of the credential-injection layer of databricks-sql-python
(src/databricks/sql/auth/authenticators.py).

The module defines three credential providers. The OAuth provider owns an
in-memory token pair and coordinates two external collaborators: a token
store (read and persist) and a token exchange (initial acquisition and
expiry-check-and-refresh). External collaborators are modelled as oracle
records of pure functions returning Except values; every operation of the
provider returns its outcome, the post state (Python exceptions do not roll
back field assignments already made) and a trace of the external calls it
issued, in order.
-/

namespace DBSql

/-- Errors are opaque exception values; the code only logs and re-raises
them, so a string stands for the exception identity. -/
abbrev Err := String

/-- The token pair exposed by the persistence layer: both components are
strings (spec section 6). -/
structure OAuthToken where
  access_token : String
  refresh_token : String
deriving DecidableEq, Repr

/-- Oracle for the token store collaborator: both operations may fail. -/
structure OAuthPersistence where
  read : Except Err (Option OAuthToken)
  persist : OAuthToken → Except Err Unit

/-- Oracle for the token exchange collaborator: initial acquisition
(get_tokens) and expiry-check-and-refresh (check_and_refresh_access_token).
The token arguments of check_and_refresh are the raw provider fields, which
are optional strings. -/
structure Exchange where
  get_tokens : String → String → String → Except Err (String × String)
  check_and_refresh : String → String → Option String → Option String →
    Except Err (String × String × Bool)

/-- One observable external call issued by the provider. -/
inductive Event where
  | readStore : Event
  | persistStore : OAuthToken → Event
  | acquire : String → String → String → Event
  | checkRefresh : String → String → Option String → Option String → Event
deriving DecidableEq, Repr

/-- The tokens persisted by a trace, in order. -/
def persistEvents (evs : List Event) : List OAuthToken :=
  evs.filterMap fun e =>
    match e with
    | Event.persistStore t => some t
    | _ => none

/-- The acquisition calls of a trace, in order. -/
def acquireEvents (evs : List Event) : List Event :=
  evs.filter fun e =>
    match e with
    | Event.acquire _ _ _ => true
    | _ => false

/-- The check-and-refresh calls of a trace, in order. -/
def checkRefreshEvents (evs : List Event) : List Event :=
  evs.filter fun e =>
    match e with
    | Event.checkRefresh _ _ _ _ => true
    | _ => false

/-- A caller-supplied mutable header mapping, as a partial map from header
names to values. -/
def Headers := String → Option String

/-- Python dict assignment on the header mapping. -/
def setHeader (h : Headers) (k v : String) : Headers :=
  fun q => if q = k then some v else h q

/-- Python truthiness of an optional-string field: None and the empty
string are falsy. -/
def pyTruthy : Option String → Bool
  | none => false
  | some s => !s.isEmpty

/-- Python f-string rendering of an optional-string field. -/
def optStr : Option String → String
  | none => "None"
  | some s => s

/-- The exception raised when an attribute is looked up on None, as happens
when persist is called on an absent persistence object. -/
def attributeErrorNonePersist : Err := "AttributeError: NoneType persist"

/-- Python str.join semantics. -/
def pyJoin (sep : String) : List String → String
  | [] => ""
  | [s] => s
  | s :: t :: rest => s ++ sep ++ pyJoin sep (t :: rest)

/-- AccessTokenAuthProvider: the cached private field set at construction. -/
structure AccessTokenAuthProvider where
  authorization_header_value : String
deriving DecidableEq, Repr

/-- AccessTokenAuthProvider.__init__. -/
def AccessTokenAuthProvider.init (access_token : String) : AccessTokenAuthProvider :=
  { authorization_header_value := "Bearer " ++ access_token }

/-- AccessTokenAuthProvider.add_headers. -/
def AccessTokenAuthProvider.add_headers (p : AccessTokenAuthProvider)
    (request_headers : Headers) : Headers :=
  setHeader request_headers "Authorization" p.authorization_header_value

/-- UTF-8 encoding of one character, as byte values. -/
def utf8EncodeCharNat (c : Char) : List Nat :=
  let n := c.toNat
  if n < 128 then [n]
  else if n < 2048 then [192 + n / 64, 128 + n % 64]
  else if n < 65536 then [224 + n / 4096, 128 + n / 64 % 64, 128 + n % 64]
  else [240 + n / 262144, 128 + n / 4096 % 64, 128 + n / 64 % 64, 128 + n % 64]

/-- UTF-8 encoding of a string, as byte values. -/
def utf8Bytes (s : String) : List Nat :=
  (s.toList.map utf8EncodeCharNat).flatten

/-- The standard base64 alphabet. -/
def base64Alphabet : List Char :=
  ("ABCDEFGHIJKLMNOPQRSTUVWXYZabcdefghijklmnopqrstuvwxyz0123456789+/").toList

/-- Digit of the standard base64 alphabet. -/
def b64Char (n : Nat) : Char := base64Alphabet.getD n 'A'

/-- base64.standard_b64encode on a byte list, producing the character list
of the encoding (standard alphabet, padded with the equals sign, no line
wrapping). -/
def standard_b64encode : List Nat → List Char
  | [] => []
  | [b1] => [b64Char (b1 / 4), b64Char (b1 % 4 * 16), '=', '=']
  | [b1, b2] => [b64Char (b1 / 4), b64Char (b1 % 4 * 16 + b2 / 16),
      b64Char (b2 % 16 * 4), '=']
  | b1 :: b2 :: b3 :: rest =>
      b64Char (b1 / 4) :: b64Char (b1 % 4 * 16 + b2 / 16) ::
      b64Char (b2 % 16 * 4 + b3 / 64) :: b64Char (b3 % 64) ::
      standard_b64encode rest

/-- BasicAuthProvider: the cached private field set at construction. -/
structure BasicAuthProvider where
  authorization_header_value : String
deriving DecidableEq, Repr

/-- BasicAuthProvider.__init__: base64 of the UTF-8 bytes of
username colon password, prefixed with the Basic keyword. -/
def BasicAuthProvider.init (username password : String) : BasicAuthProvider :=
  let auth_credentials := utf8Bytes (username ++ ":" ++ password)
  let auth_credentials_base64 := String.mk (standard_b64encode auth_credentials)
  { authorization_header_value := "Basic " ++ auth_credentials_base64 }

/-- BasicAuthProvider.add_headers. -/
def BasicAuthProvider.add_headers (p : BasicAuthProvider)
    (request_headers : Headers) : Headers :=
  setHeader request_headers "Authorization" p.authorization_header_value

/-- DatabricksOAuthProvider.SCOPE_DELIM. -/
def SCOPE_DELIM : String := " "

/-- The fields of a DatabricksOAuthProvider instance. -/
structure DatabricksOAuthProvider where
  hostname : String
  scopes_as_str : String
  oauth_persistence : Option OAuthPersistence
  client_id : String
  access_token : Option String
  refresh_token : Option String

/-- Python str.startswith. -/
def pyStartswith (s pre : String) : Bool :=
  pre.toList.isPrefixOf s.toList

/-- Python str.endswith. -/
def pyEndswith (s suf : String) : Bool :=
  suf.toList.reverse.isPrefixOf s.toList.reverse

/-- DatabricksOAuthProvider._normalize_host_name. -/
def normalize_host_name (hostname : String) : String :=
  let maybe_scheme := if !pyStartswith hostname "https://" then "https://" else ""
  let maybe_trailing_slash := if !pyEndswith hostname "/" then "/" else ""
  maybe_scheme ++ hostname ++ maybe_trailing_slash

/-- DatabricksOAuthProvider._update_token_if_expired: calls
check_and_refresh_access_token with the current fields; on no refresh it
returns leaving state untouched; on refresh it assigns both fields to the
fresh pair and then, only when the persistence object is truthy, persists
the fresh pair. A raised exception propagates but assignments already made
stay. -/
def update_token_if_expired (ex : Exchange) (p : DatabricksOAuthProvider) :
    Except Err Unit × DatabricksOAuthProvider × List Event :=
  let ev := Event.checkRefresh p.hostname p.client_id p.access_token p.refresh_token
  match ex.check_and_refresh p.hostname p.client_id p.access_token p.refresh_token with
  | Except.error e => (Except.error e, p, [ev])
  | Except.ok (fresh_access_token, fresh_refresh_token, is_refreshed) =>
    if !is_refreshed then
      (Except.ok (), p, [ev])
    else
      let p1 := { p with access_token := some fresh_access_token,
                         refresh_token := some fresh_refresh_token }
      match p1.oauth_persistence with
      | some st =>
        let token := OAuthToken.mk fresh_access_token fresh_refresh_token
        match st.persist token with
        | Except.ok _ => (Except.ok (), p1, [ev, Event.persistStore token])
        | Except.error e => (Except.error e, p1, [ev, Event.persistStore token])
      | none => (Except.ok (), p1, [ev])

/-- Lines 92 to 97 of _initial_get_token: when a token field is None and
the persistence object is truthy, read the store and adopt a returned
pair into both fields. -/
def readPhase (p : DatabricksOAuthProvider) :
    Except Err Unit × DatabricksOAuthProvider × List Event :=
  if p.access_token.isNone || p.refresh_token.isNone then
    match p.oauth_persistence with
    | some st =>
      match st.read with
      | Except.error e => (Except.error e, p, [Event.readStore])
      | Except.ok none => (Except.ok (), p, [Event.readStore])
      | Except.ok (some token) =>
          (Except.ok (), { p with access_token := some token.access_token,
                                  refresh_token := some token.refresh_token },
           [Event.readStore])
    | none => (Except.ok (), p, [])
  else (Except.ok (), p, [])

/-- Lines 102 to 107 of _initial_get_token: acquire a fresh pair via
get_tokens, assign both fields, and persist it through an unguarded
attribute access on the persistence object (raising when it is None). -/
def acquire_fresh (ex : Exchange) (p1 : DatabricksOAuthProvider) :
    Except Err Unit × DatabricksOAuthProvider × List Event :=
  let evA := [Event.acquire p1.hostname p1.client_id p1.scopes_as_str]
  match ex.get_tokens p1.hostname p1.client_id p1.scopes_as_str with
  | Except.error e => (Except.error e, p1, evA)
  | Except.ok (access_token, refresh_token) =>
    let p2 := { p1 with access_token := some access_token,
                        refresh_token := some refresh_token }
    match p2.oauth_persistence with
    | none => (Except.error attributeErrorNonePersist, p2, evA)
    | some st =>
      let token := OAuthToken.mk access_token refresh_token
      match st.persist token with
      | Except.ok _ => (Except.ok (), p2, evA ++ [Event.persistStore token])
      | Except.error e => (Except.error e, p2, evA ++ [Event.persistStore token])

/-- DatabricksOAuthProvider._initial_get_token: run the read phase; then
either run the expiry check (both fields truthy) or run the fresh
acquisition. -/
def initial_get_token (ex : Exchange) (p : DatabricksOAuthProvider) :
    Except Err Unit × DatabricksOAuthProvider × List Event :=
  match readPhase p with
  | (Except.error e, p1, evs) => (Except.error e, p1, evs)
  | (Except.ok _, p1, evs) =>
    if pyTruthy p1.access_token && pyTruthy p1.refresh_token then
      match update_token_if_expired ex p1 with
      | (r, p2, evs2) => (r, p2, evs ++ evs2)
    else
      match acquire_fresh ex p1 with
      | (r, p2, evs2) => (r, p2, evs ++ evs2)

/-- DatabricksOAuthProvider.__init__: normalize the host, join the scopes
with SCOPE_DELIM, set both token fields to None, then run
_initial_get_token; any exception propagates and the half-built instance is
discarded. -/
def DatabricksOAuthProvider.init (ex : Exchange) (hostname : String)
    (oauth_persistence : Option OAuthPersistence) (client_id : String)
    (scopes : List String) : Except Err DatabricksOAuthProvider × List Event :=
  match initial_get_token ex
      { hostname := normalize_host_name hostname
        scopes_as_str := pyJoin SCOPE_DELIM scopes
        oauth_persistence := oauth_persistence
        client_id := client_id
        access_token := none
        refresh_token := none } with
  | (Except.ok _, p1, evs) => (Except.ok p1, evs)
  | (Except.error e, _, evs) => (Except.error e, evs)

/-- DatabricksOAuthProvider.add_headers: run the expiry check, then set the
Authorization header from the (possibly refreshed) access token; on an
exception the header mapping is untouched. -/
def DatabricksOAuthProvider.add_headers (ex : Exchange)
    (p : DatabricksOAuthProvider) (request_headers : Headers) :
    Except Err Unit × DatabricksOAuthProvider × Headers × List Event :=
  match update_token_if_expired ex p with
  | (Except.ok _, p1, evs) =>
      (Except.ok (), p1,
       setHeader request_headers "Authorization" ("Bearer " ++ optStr p1.access_token),
       evs)
  | (Except.error e, p1, evs) => (Except.error e, p1, request_headers, evs)

/-- The token pair visible after the read phase of construction: None when
the persistence object is falsy or the store holds nothing. -/
def tokenAfterRead (pers : Option OAuthPersistence) :
    Except Err (Option String × Option String) :=
  match pers with
  | none => Except.ok (none, none)
  | some st =>
    match st.read with
    | Except.error e => Except.error e
    | Except.ok none => Except.ok (none, none)
    | Except.ok (some t) => Except.ok (some t.access_token, some t.refresh_token)

/-- The read phase of construction succeeds but yields an incomplete pair
(at most one truthy component). -/
def readGivesIncomplete (pers : Option OAuthPersistence) : Bool :=
  match tokenAfterRead pers with
  | Except.error _ => false
  | Except.ok (a, r) => !(pyTruthy a && pyTruthy r)

/-- A provider is Ready when it is the instance returned by a successful
construction. -/
def Ready (ex : Exchange) (hostname : String) (pers : Option OAuthPersistence)
    (client_id : String) (scopes : List String)
    (p : DatabricksOAuthProvider) : Prop :=
  (DatabricksOAuthProvider.init ex hostname pers client_id scopes).1 = Except.ok p

/-- The expiry check never changes the configuration fields of the
provider, only the token fields. -/
theorem update_config_eq (ex : Exchange) (p : DatabricksOAuthProvider) :
    (update_token_if_expired ex p).2.1.hostname = p.hostname ∧
    (update_token_if_expired ex p).2.1.client_id = p.client_id ∧
    (update_token_if_expired ex p).2.1.oauth_persistence = p.oauth_persistence ∧
    (update_token_if_expired ex p).2.1.scopes_as_str = p.scopes_as_str := by
  unfold update_token_if_expired
  rcases hc : ex.check_and_refresh p.hostname p.client_id p.access_token p.refresh_token
    with e | ⟨a, r, b⟩
  · simp
  · rcases b
    · simp
    · simp only [Bool.not_true, Bool.false_eq_true, if_false]
      rcases hp : p.oauth_persistence with _ | st
      · simp [hp]
      · simp only [hp]
        rcases hs : st.persist (OAuthToken.mk a r) with e | u <;> simp [hs]

/-- The read phase never changes the configuration fields of the
provider, only the token fields. -/
theorem readPhase_config_eq (p : DatabricksOAuthProvider) :
    (readPhase p).2.1.hostname = p.hostname ∧
    (readPhase p).2.1.client_id = p.client_id ∧
    (readPhase p).2.1.oauth_persistence = p.oauth_persistence ∧
    (readPhase p).2.1.scopes_as_str = p.scopes_as_str := by
  unfold readPhase
  split
  · rcases hp : p.oauth_persistence with _ | st
    · simp [hp]
    · simp only [hp]
      rcases hr : st.read with e | t
      · simp [hp]
      · rcases t with _ | tok <;> simp [hp]
  · simp

/-- The fresh acquisition never changes the configuration fields of the
provider, only the token fields. -/
theorem acquire_fresh_config_eq (ex : Exchange) (p : DatabricksOAuthProvider) :
    (acquire_fresh ex p).2.1.hostname = p.hostname ∧
    (acquire_fresh ex p).2.1.client_id = p.client_id ∧
    (acquire_fresh ex p).2.1.oauth_persistence = p.oauth_persistence ∧
    (acquire_fresh ex p).2.1.scopes_as_str = p.scopes_as_str := by
  unfold acquire_fresh
  rcases hg : ex.get_tokens p.hostname p.client_id p.scopes_as_str with e | ⟨a, r⟩
  · simp
  · simp only []
    rcases hp : p.oauth_persistence with _ | st
    · simp [hp]
    · simp only [hp]
      rcases hs : st.persist (OAuthToken.mk a r) with e | u <;> simp [hp]

/-- Construction never changes the persistence field recorded at the
start of init. -/
theorem initial_pers_eq (ex : Exchange) (p : DatabricksOAuthProvider) :
    (initial_get_token ex p).2.1.oauth_persistence = p.oauth_persistence := by
  unfold initial_get_token
  rcases hR : readPhase p with ⟨res, p1, evs⟩
  have hp1 : p1.oauth_persistence = p.oauth_persistence := by
    have h := (readPhase_config_eq p).2.2.1
    rw [hR] at h
    exact h
  rcases res with e | u
  · simpa using hp1
  · simp only []
    split
    · rcases hU : update_token_if_expired ex p1 with ⟨r2, p2, evs2⟩
      have h := (update_config_eq ex p1).2.2.1
      rw [hU] at h
      exact h.trans hp1
    · rcases hA : acquire_fresh ex p1 with ⟨r2, p2, evs2⟩
      have h := (acquire_fresh_config_eq ex p1).2.2.1
      rw [hA] at h
      exact h.trans hp1

/-- Filtering the acquisition calls distributes over trace concatenation. -/
theorem acquireEvents_append (xs ys : List Event) :
    acquireEvents (xs ++ ys) = acquireEvents xs ++ acquireEvents ys :=
  List.filter_append xs ys

/-- Filtering the check calls distributes over trace concatenation. -/
theorem checkRefreshEvents_append (xs ys : List Event) :
    checkRefreshEvents (xs ++ ys) = checkRefreshEvents xs ++ checkRefreshEvents ys :=
  List.filter_append xs ys

/-- Filtering the persisted tokens distributes over trace concatenation. -/
theorem persistEvents_append (xs ys : List Event) :
    persistEvents (xs ++ ys) = persistEvents xs ++ persistEvents ys :=
  List.filterMap_append xs ys _

/-- The fresh acquisition issues exactly one acquire call, carrying the
provider's normalized host, client id and canonical scope string, and
issues no check call. -/
theorem acquire_fresh_trace (ex : Exchange) (p1 : DatabricksOAuthProvider) :
    acquireEvents (acquire_fresh ex p1).2.2 =
      [Event.acquire p1.hostname p1.client_id p1.scopes_as_str] ∧
    checkRefreshEvents (acquire_fresh ex p1).2.2 = [] := by
  unfold acquire_fresh
  rcases hg : ex.get_tokens p1.hostname p1.client_id p1.scopes_as_str with e | ⟨a, r⟩
  · simp [acquireEvents, checkRefreshEvents]
  · simp only []
    rcases hp : p1.oauth_persistence with _ | st
    · simp [hp, acquireEvents, checkRefreshEvents]
    · simp only [hp]
      rcases hs : st.persist (OAuthToken.mk a r) with e | u <;>
        simp [acquireEvents, checkRefreshEvents]

/-- When get_tokens raises, the fresh acquisition propagates the error,
leaves the provider untouched, and its trace holds the acquire call only
(in particular no persist call). -/
theorem acquire_fresh_err (ex : Exchange) (p1 : DatabricksOAuthProvider) (e : Err)
    (hg : ex.get_tokens p1.hostname p1.client_id p1.scopes_as_str = Except.error e) :
    acquire_fresh ex p1 =
      (Except.error e, p1,
       [Event.acquire p1.hostname p1.client_id p1.scopes_as_str]) := by
  unfold acquire_fresh
  rw [hg]

/-- A successfully constructed provider carries the persistence object it
was constructed with. -/
theorem init_ok_pers (ex : Exchange) (host : String) (pers : Option OAuthPersistence)
    (cid : String) (scopes : List String) (p : DatabricksOAuthProvider)
    (h : (DatabricksOAuthProvider.init ex host pers cid scopes).1 = Except.ok p) :
    p.oauth_persistence = pers := by
  unfold DatabricksOAuthProvider.init at h
  have hper := initial_pers_eq ex
    { hostname := normalize_host_name host
      scopes_as_str := pyJoin SCOPE_DELIM scopes
      oauth_persistence := pers
      client_id := cid
      access_token := none
      refresh_token := none }
  rcases hI : initial_get_token ex
      { hostname := normalize_host_name host
        scopes_as_str := pyJoin SCOPE_DELIM scopes
        oauth_persistence := pers
        client_id := cid
        access_token := none
        refresh_token := none } with ⟨r1, p1, evs1⟩
  rw [hI] at h hper
  rcases r1 with e | u
  · simp at h
  · simp at h
    rw [← h]
    exact hper

/-- When the pair visible after the read phase is incomplete, construction
runs exactly the fresh acquisition after the read phase: the pre-acquire
trace holds no acquire, no check and no persist call, and the acquisition
runs on a provider carrying the construction configuration. -/
theorem initial_incomplete (ex : Exchange) (p : DatabricksOAuthProvider)
    (ha : p.access_token = none) (hr : p.refresh_token = none)
    (hInc : readGivesIncomplete p.oauth_persistence = true) :
    ∃ (p1 : DatabricksOAuthProvider) (evs : List Event),
      p1.hostname = p.hostname ∧ p1.client_id = p.client_id ∧
      p1.scopes_as_str = p.scopes_as_str ∧
      p1.oauth_persistence = p.oauth_persistence ∧
      acquireEvents evs = [] ∧ checkRefreshEvents evs = [] ∧
      persistEvents evs = [] ∧
      initial_get_token ex p =
        ((acquire_fresh ex p1).1, (acquire_fresh ex p1).2.1,
         evs ++ (acquire_fresh ex p1).2.2) := by
  unfold initial_get_token readPhase
  rcases hp : p.oauth_persistence with _ | st
  · refine ⟨p, [], rfl, rfl, rfl, hp, rfl, rfl, rfl, ?_⟩
    rcases hA : acquire_fresh ex p with ⟨rA, pA, eA⟩
    simp [ha, hr, hp, pyTruthy, hA]
  · rw [hp] at hInc
    rcases hread : st.read with e | topt
    · simp [readGivesIncomplete, tokenAfterRead, hread] at hInc
    · rcases topt with _ | tok
      · refine ⟨p, [Event.readStore], rfl, rfl, rfl, hp, rfl, rfl, rfl, ?_⟩
        rcases hA : acquire_fresh ex p with ⟨rA, pA, eA⟩
        simp [ha, hr, hp, hread, pyTruthy, hA]
      · have hfalse : (pyTruthy (some tok.access_token) &&
            pyTruthy (some tok.refresh_token)) = false := by
          simp only [readGivesIncomplete, tokenAfterRead, hread,
            Bool.not_eq_true'] at hInc
          exact hInc
        refine ⟨{ p with access_token := some tok.access_token,
                         refresh_token := some tok.refresh_token },
                [Event.readStore], rfl, rfl, rfl, hp, rfl, rfl, rfl, ?_⟩
        rcases hA : acquire_fresh ex
            { p with access_token := some tok.access_token,
                     refresh_token := some tok.refresh_token } with ⟨rA, pA, eA⟩
        rw [hp] at hA
        simp [ha, hr, hp, hread, hfalse, hA]

/-- C3: when the pair available after reading the store is incomplete,
construction issues exactly one acquire call and never calls
check_and_refresh. -/
theorem c3_incomplete_forces_acquire (ex : Exchange) (host cid : String)
    (pers : Option OAuthPersistence) (scopes : List String)
    (hInc : readGivesIncomplete pers = true) :
    (acquireEvents (DatabricksOAuthProvider.init ex host pers cid scopes).2).length = 1 ∧
    checkRefreshEvents (DatabricksOAuthProvider.init ex host pers cid scopes).2 = [] := by
  unfold DatabricksOAuthProvider.init
  obtain ⟨p1, evs, hh, hc, hs, hp, hae, hce, hpe, heq⟩ :=
    initial_incomplete ex
      { hostname := normalize_host_name host
        scopes_as_str := pyJoin SCOPE_DELIM scopes
        oauth_persistence := pers
        client_id := cid
        access_token := none
        refresh_token := none } rfl rfl hInc
  rw [heq]
  have htr := acquire_fresh_trace ex p1
  rcases hA : acquire_fresh ex p1 with ⟨rA, pA, eA⟩
  rw [hA] at htr
  rcases rA with e | u <;>
    simp [acquireEvents_append, checkRefreshEvents_append, hae, hce, htr.1, htr.2]

def c3ex : Exchange :=
  { get_tokens := fun _ _ _ => Except.ok ("a", "r")
    check_and_refresh := fun _ _ _ _ => Except.ok ("x", "y", false) }

theorem c3_incomplete_forces_acquire_witness :
    readGivesIncomplete none = true ∧
    ((acquireEvents (DatabricksOAuthProvider.init c3ex "host.com" none "cid"
        ["sc"]).2).length = 1 ∧
     checkRefreshEvents (DatabricksOAuthProvider.init c3ex "host.com" none "cid"
        ["sc"]).2 = []) :=
  ⟨by decide, c3_incomplete_forces_acquire c3ex "host.com" "cid" none ["sc"] (by decide)⟩

/-- C8: the scope string handed to the exchange is the caller-supplied
scope list joined in order with the single-space delimiter, and the list
of the strings read and write joins to the string read-space-write. -/
theorem c8_scope_string (ex : Exchange) (host cid : String)
    (pers : Option OAuthPersistence) (scopes : List String)
    (hInc : readGivesIncomplete pers = true) :
    acquireEvents (DatabricksOAuthProvider.init ex host pers cid scopes).2 =
      [Event.acquire (normalize_host_name host) cid (pyJoin SCOPE_DELIM scopes)] ∧
    pyJoin SCOPE_DELIM ["read", "write"] = "read write" := by
  constructor
  · unfold DatabricksOAuthProvider.init
    obtain ⟨p1, evs, hh, hc, hs, hp, hae, hce, hpe, heq⟩ :=
      initial_incomplete ex
        { hostname := normalize_host_name host
          scopes_as_str := pyJoin SCOPE_DELIM scopes
          oauth_persistence := pers
          client_id := cid
          access_token := none
          refresh_token := none } rfl rfl hInc
    rw [heq]
    have htr := (acquire_fresh_trace ex p1).1
    rw [hh, hc, hs] at htr
    rcases hA : acquire_fresh ex p1 with ⟨rA, pA, eA⟩
    rw [hA] at htr
    rcases rA with e | u <;> simp [acquireEvents_append, hae, htr]
  · decide

def c8ex : Exchange :=
  { get_tokens := fun _ _ _ => Except.ok ("a", "r")
    check_and_refresh := fun _ _ _ _ => Except.ok ("x", "y", false) }

theorem c8_scope_string_witness :
    readGivesIncomplete none = true ∧
    (acquireEvents (DatabricksOAuthProvider.init c8ex "host.com" none "cid"
        ["read", "write"]).2 =
      [Event.acquire (normalize_host_name "host.com") "cid"
        (pyJoin SCOPE_DELIM ["read", "write"])] ∧
     pyJoin SCOPE_DELIM ["read", "write"] = "read write") :=
  ⟨by decide, c8_scope_string c8ex "host.com" "cid" none ["read", "write"] (by decide)⟩

/-- C7: when the fresh-acquisition branch is taken and get_tokens raises,
construction propagates the error (no instance is returned) and no persist
call has occurred. -/
theorem c7_acquire_failure (ex : Exchange) (host cid : String)
    (pers : Option OAuthPersistence) (scopes : List String) (e : Err)
    (hInc : readGivesIncomplete pers = true)
    (hg : ex.get_tokens (normalize_host_name host) cid (pyJoin SCOPE_DELIM scopes) =
      Except.error e) :
    (DatabricksOAuthProvider.init ex host pers cid scopes).1 = Except.error e ∧
    persistEvents (DatabricksOAuthProvider.init ex host pers cid scopes).2 = [] := by
  unfold DatabricksOAuthProvider.init
  obtain ⟨p1, evs, hh, hc, hs, hp, hae, hce, hpe, heq⟩ :=
    initial_incomplete ex
      { hostname := normalize_host_name host
        scopes_as_str := pyJoin SCOPE_DELIM scopes
        oauth_persistence := pers
        client_id := cid
        access_token := none
        refresh_token := none } rfl rfl hInc
  rw [heq]
  have hA := acquire_fresh_err ex p1 e (by rw [hh, hc, hs]; exact hg)
  rw [hA]
  refine ⟨rfl, ?_⟩
  show persistEvents
      (evs ++ [Event.acquire p1.hostname p1.client_id p1.scopes_as_str]) = []
  rw [persistEvents_append, hpe]
  rfl

def c7ex : Exchange :=
  { get_tokens := fun _ _ _ => Except.error "network down"
    check_and_refresh := fun _ _ _ _ => Except.ok ("x", "y", false) }

theorem c7_acquire_failure_witness :
    readGivesIncomplete none = true ∧
    c7ex.get_tokens (normalize_host_name "host.com") "cid"
      (pyJoin SCOPE_DELIM ["sc"]) = Except.error "network down" ∧
    ((DatabricksOAuthProvider.init c7ex "host.com" none "cid" ["sc"]).1 =
        Except.error "network down" ∧
     persistEvents (DatabricksOAuthProvider.init c7ex "host.com" none "cid"
        ["sc"]).2 = []) :=
  ⟨by decide, rfl,
   c7_acquire_failure c7ex "host.com" "cid" none ["sc"] "network down"
     (by decide) rfl⟩

/-- C2: host normalization is pure and prefixes https:// exactly when the
hostname does not already carry the https:// scheme prefix, and appends a
slash exactly when the hostname has no trailing slash; the three spec
examples follow. -/
theorem c2_normalize_host_name :
    (∀ hostname : String,
      normalize_host_name hostname =
        (if pyStartswith hostname "https://" then "" else "https://") ++ hostname ++
        (if pyEndswith hostname "/" then "" else "/")) ∧
    normalize_host_name "host.com" = "https://host.com/" ∧
    normalize_host_name "https://host.com" = "https://host.com/" ∧
    normalize_host_name "https://host.com/" = "https://host.com/" := by
  refine ⟨fun hostname => ?_, by decide, by decide, by decide⟩
  unfold normalize_host_name
  rcases h1 : pyStartswith hostname "https://" <;>
    rcases h2 : pyEndswith hostname "/" <;> simp

/-- C5: when check_and_refresh reports no refresh, inject succeeds, the
in-memory token pair is unchanged (the whole provider is unchanged), no
persist call occurs, and the header is installed from the unchanged access
token. -/
theorem c5_no_refresh_no_mutation (ex : Exchange) (p : DatabricksOAuthProvider)
    (h : Headers) (a r : String)
    (hc : ex.check_and_refresh p.hostname p.client_id p.access_token p.refresh_token =
      Except.ok (a, r, false)) :
    DatabricksOAuthProvider.add_headers ex p h =
      (Except.ok (), p,
       setHeader h "Authorization" ("Bearer " ++ optStr p.access_token),
       [Event.checkRefresh p.hostname p.client_id p.access_token p.refresh_token]) ∧
    persistEvents (DatabricksOAuthProvider.add_headers ex p h).2.2.2 = [] := by
  unfold DatabricksOAuthProvider.add_headers update_token_if_expired
  rw [hc]
  simp [persistEvents]

def c5ex : Exchange :=
  { get_tokens := fun _ _ _ => Except.error "unused"
    check_and_refresh := fun _ _ _ _ => Except.ok ("a1", "r1", false) }

def c5p : DatabricksOAuthProvider :=
  { hostname := "https://h/"
    scopes_as_str := "s"
    oauth_persistence := none
    client_id := "c"
    access_token := some "a0"
    refresh_token := some "r0" }

def c5h : Headers := fun _ => none

theorem c5_no_refresh_no_mutation_witness :
    c5ex.check_and_refresh c5p.hostname c5p.client_id c5p.access_token
        c5p.refresh_token = Except.ok ("a1", "r1", false) ∧
    (DatabricksOAuthProvider.add_headers c5ex c5p c5h =
      (Except.ok (), c5p,
       setHeader c5h "Authorization" ("Bearer " ++ optStr c5p.access_token),
       [Event.checkRefresh c5p.hostname c5p.client_id c5p.access_token
          c5p.refresh_token]) ∧
     persistEvents (DatabricksOAuthProvider.add_headers c5ex c5p c5h).2.2.2 = []) :=
  ⟨rfl, c5_no_refresh_no_mutation c5ex c5p c5h "a1" "r1" rfl⟩

/-- C9: for each variant, a successful inject sets only the Authorization
key: every other key keeps its previous value, and the value written to
Authorization does not depend on the header mapping. -/
theorem c9_header_frame :
    (∀ (tok : String) (h : Headers) (k : String), k ≠ "Authorization" →
      AccessTokenAuthProvider.add_headers (AccessTokenAuthProvider.init tok) h k = h k ∧
      AccessTokenAuthProvider.add_headers (AccessTokenAuthProvider.init tok) h
        "Authorization" = some ("Bearer " ++ tok)) ∧
    (∀ (u pw : String) (h : Headers) (k : String), k ≠ "Authorization" →
      BasicAuthProvider.add_headers (BasicAuthProvider.init u pw) h k = h k ∧
      BasicAuthProvider.add_headers (BasicAuthProvider.init u pw) h
        "Authorization" =
        some ("Basic " ++ String.mk (standard_b64encode (utf8Bytes (u ++ ":" ++ pw))))) ∧
    (∀ (ex : Exchange) (p : DatabricksOAuthProvider) (h : Headers) (k : String),
      k ≠ "Authorization" →
      (DatabricksOAuthProvider.add_headers ex p h).1 = Except.ok () →
      (DatabricksOAuthProvider.add_headers ex p h).2.2.1 k = h k ∧
      (DatabricksOAuthProvider.add_headers ex p h).2.2.1 "Authorization" =
        some ("Bearer " ++ optStr ((update_token_if_expired ex p).2.1.access_token))) := by
  refine ⟨fun tok h k hk => ?_, fun u pw h k hk => ?_, fun ex p h k hk hok => ?_⟩
  · exact ⟨by simp [AccessTokenAuthProvider.add_headers, AccessTokenAuthProvider.init,
      setHeader, hk], by simp [AccessTokenAuthProvider.add_headers,
      AccessTokenAuthProvider.init, setHeader]⟩
  · exact ⟨by simp [BasicAuthProvider.add_headers, BasicAuthProvider.init,
      setHeader, hk], by simp [BasicAuthProvider.add_headers, BasicAuthProvider.init,
      setHeader]⟩
  · unfold DatabricksOAuthProvider.add_headers at hok ⊢
    rcases hU : update_token_if_expired ex p with ⟨r2, p2, evs2⟩
    rw [hU] at hok
    rcases r2 with e | u2
    · simp at hok
    · simp [setHeader, hk]

def c9ex : Exchange :=
  { get_tokens := fun _ _ _ => Except.error "unused"
    check_and_refresh := fun _ _ _ _ => Except.ok ("a1", "r1", false) }

def c9p : DatabricksOAuthProvider :=
  { hostname := "https://h/"
    scopes_as_str := "s"
    oauth_persistence := none
    client_id := "c"
    access_token := some "a0"
    refresh_token := some "r0" }

def c9h : Headers := fun q => if q = "X-Other" then some "v" else none

theorem c9_header_frame_witness :
    ("X-Other" ≠ "Authorization") ∧
    ((DatabricksOAuthProvider.add_headers c9ex c9p c9h).1 = Except.ok ()) ∧
    (AccessTokenAuthProvider.add_headers (AccessTokenAuthProvider.init "t") c9h
        "X-Other" = some "v") ∧
    (BasicAuthProvider.add_headers (BasicAuthProvider.init "u" "p") c9h
        "X-Other" = some "v") ∧
    ((DatabricksOAuthProvider.add_headers c9ex c9p c9h).2.2.1 "X-Other" = some "v" ∧
     (DatabricksOAuthProvider.add_headers c9ex c9p c9h).2.2.1 "Authorization" =
       some ("Bearer " ++ optStr ((update_token_if_expired c9ex c9p).2.1.access_token))) :=
  ⟨by decide, rfl,
   by have := (c9_header_frame.1 "t" c9h "X-Other" (by decide)).1
      rw [this]; rfl,
   by have := (c9_header_frame.2.1 "u" "p" c9h "X-Other" (by decide)).1
      rw [this]; rfl,
   c9_header_frame.2.2 c9ex c9p c9h "X-Other" (by decide) rfl⟩

/-- C10: constructing with an absent persistence object and no complete
pair always fails (the acquisition path calls persist unconditionally,
raising on the absent object), while the refresh path during inject guards
its persist call and skips it when the persistence object is absent. -/
theorem c10_absent_persistence :
    (∀ (ex : Exchange) (host cid : String) (scopes : List String),
      ∃ e, (DatabricksOAuthProvider.init ex host none cid scopes).1 = Except.error e) ∧
    (∀ (ex : Exchange) (p : DatabricksOAuthProvider) (h : Headers) (a r : String),
      p.oauth_persistence = none →
      ex.check_and_refresh p.hostname p.client_id p.access_token p.refresh_token =
        Except.ok (a, r, true) →
      (DatabricksOAuthProvider.add_headers ex p h).1 = Except.ok () ∧
      persistEvents (DatabricksOAuthProvider.add_headers ex p h).2.2.2 = [] ∧
      (DatabricksOAuthProvider.add_headers ex p h).2.1.access_token = some a ∧
      (DatabricksOAuthProvider.add_headers ex p h).2.1.refresh_token = some r) := by
  constructor
  · intro ex host cid scopes
    unfold DatabricksOAuthProvider.init initial_get_token readPhase acquire_fresh
    rcases hg : ex.get_tokens (normalize_host_name host) cid (pyJoin SCOPE_DELIM scopes)
      with e | ⟨a, r⟩
    · exact ⟨e, by simp [pyTruthy, hg]⟩
    · exact ⟨attributeErrorNonePersist, by simp [pyTruthy, hg]⟩
  · intro ex p h a r hp hc
    unfold DatabricksOAuthProvider.add_headers update_token_if_expired
    rw [hc]
    simp [hp, persistEvents]

def c10ex : Exchange :=
  { get_tokens := fun _ _ _ => Except.ok ("a1", "r1")
    check_and_refresh := fun _ _ _ _ => Except.ok ("a2", "r2", true) }

def c10p : DatabricksOAuthProvider :=
  { hostname := "https://h/"
    scopes_as_str := "s"
    oauth_persistence := none
    client_id := "c"
    access_token := some "a0"
    refresh_token := some "r0" }

theorem c10_absent_persistence_witness :
    (∃ e, (DatabricksOAuthProvider.init c10ex "h" none "c" ["s"]).1 = Except.error e) ∧
    (c10p.oauth_persistence = none ∧
     c10ex.check_and_refresh c10p.hostname c10p.client_id c10p.access_token
        c10p.refresh_token = Except.ok ("a2", "r2", true) ∧
     ((DatabricksOAuthProvider.add_headers c10ex c10p c5h).1 = Except.ok () ∧
      persistEvents (DatabricksOAuthProvider.add_headers c10ex c10p c5h).2.2.2 = [] ∧
      (DatabricksOAuthProvider.add_headers c10ex c10p c5h).2.1.access_token = some "a2" ∧
      (DatabricksOAuthProvider.add_headers c10ex c10p c5h).2.1.refresh_token = some "r2")) :=
  ⟨c10_absent_persistence.1 c10ex "h" "c" ["s"],
   rfl, rfl,
   c10_absent_persistence.2 c10ex c10p c5h "a2" "r2" rfl rfl⟩

/-- When check_and_refresh reports no refresh, inject returns the provider
and the trace of the single check call, and installs the header from the
unchanged access token. -/
theorem add_headers_no_refresh (ex : Exchange) (p : DatabricksOAuthProvider)
    (h : Headers) (x y : String)
    (hc : ex.check_and_refresh p.hostname p.client_id p.access_token p.refresh_token =
      Except.ok (x, y, false)) :
    DatabricksOAuthProvider.add_headers ex p h =
      (Except.ok (), p,
       setHeader h "Authorization" ("Bearer " ++ optStr p.access_token),
       [Event.checkRefresh p.hostname p.client_id p.access_token p.refresh_token]) := by
  unfold DatabricksOAuthProvider.add_headers update_token_if_expired
  rw [hc]
  simp

/-- C6: when the store is empty at construction, exactly one acquire call
occurs, its returned pair is persisted and adopted, and a first inject
whose check reports no refresh installs the acquired access token. -/
theorem c6_empty_store_single_acquire (ex : Exchange) (host cid : String)
    (st : OAuthPersistence) (scopes : List String) (a r : String)
    (hread : st.read = Except.ok none)
    (hacq : ex.get_tokens (normalize_host_name host) cid (pyJoin SCOPE_DELIM scopes) =
      Except.ok (a, r))
    (hpersist : st.persist (OAuthToken.mk a r) = Except.ok ()) :
    ∃ p, DatabricksOAuthProvider.init ex host (some st) cid scopes =
        (Except.ok p,
         [Event.readStore,
          Event.acquire (normalize_host_name host) cid (pyJoin SCOPE_DELIM scopes),
          Event.persistStore (OAuthToken.mk a r)]) ∧
      p.access_token = some a ∧ p.refresh_token = some r ∧
      (acquireEvents (DatabricksOAuthProvider.init ex host (some st) cid
        scopes).2).length = 1 ∧
      persistEvents (DatabricksOAuthProvider.init ex host (some st) cid scopes).2 =
        [OAuthToken.mk a r] ∧
      (∀ (ex1 : Exchange) (h : Headers) (x y : String),
        ex1.check_and_refresh p.hostname p.client_id p.access_token p.refresh_token =
          Except.ok (x, y, false) →
        (DatabricksOAuthProvider.add_headers ex1 p h).2.2.1 "Authorization" =
          some ("Bearer " ++ a)) := by
  have hinit : DatabricksOAuthProvider.init ex host (some st) cid scopes =
      (Except.ok { hostname := normalize_host_name host
                   scopes_as_str := pyJoin SCOPE_DELIM scopes
                   oauth_persistence := some st
                   client_id := cid
                   access_token := some a
                   refresh_token := some r },
       [Event.readStore,
        Event.acquire (normalize_host_name host) cid (pyJoin SCOPE_DELIM scopes),
        Event.persistStore (OAuthToken.mk a r)]) := by
    unfold DatabricksOAuthProvider.init initial_get_token readPhase acquire_fresh
    simp [hread, hacq, hpersist, pyTruthy]
  refine ⟨_, hinit, rfl, rfl, ?_, ?_, ?_⟩
  · rw [hinit]
    rfl
  · rw [hinit]
    rfl
  · intro ex1 h x y hc1
    rw [add_headers_no_refresh ex1 _ h x y hc1]
    simp [setHeader, optStr]

def c6st : OAuthPersistence :=
  { read := Except.ok none
    persist := fun _ => Except.ok () }

def c6ex : Exchange :=
  { get_tokens := fun _ _ _ => Except.ok ("a", "r")
    check_and_refresh := fun _ _ _ _ => Except.ok ("a", "r", false) }

theorem c6_empty_store_single_acquire_witness :
    c6st.read = Except.ok none ∧
    c6ex.get_tokens (normalize_host_name "host.com") "cid"
      (pyJoin SCOPE_DELIM ["sc"]) = Except.ok ("a", "r") ∧
    c6st.persist (OAuthToken.mk "a" "r") = Except.ok () ∧
    (∃ p, DatabricksOAuthProvider.init c6ex "host.com" (some c6st) "cid" ["sc"] =
        (Except.ok p,
         [Event.readStore,
          Event.acquire (normalize_host_name "host.com") "cid"
            (pyJoin SCOPE_DELIM ["sc"]),
          Event.persistStore (OAuthToken.mk "a" "r")]) ∧
      p.access_token = some "a" ∧ p.refresh_token = some "r" ∧
      (acquireEvents (DatabricksOAuthProvider.init c6ex "host.com" (some c6st) "cid"
        ["sc"]).2).length = 1 ∧
      persistEvents (DatabricksOAuthProvider.init c6ex "host.com" (some c6st) "cid"
        ["sc"]).2 = [OAuthToken.mk "a" "r"] ∧
      (∀ (ex1 : Exchange) (h : Headers) (x y : String),
        ex1.check_and_refresh p.hostname p.client_id p.access_token p.refresh_token =
          Except.ok (x, y, false) →
        (DatabricksOAuthProvider.add_headers ex1 p h).2.2.1 "Authorization" =
          some ("Bearer " ++ "a"))) :=
  ⟨rfl, rfl, rfl,
   c6_empty_store_single_acquire c6ex "host.com" "cid" c6st ["sc"] "a" "r"
     rfl rfl rfl⟩

/-- C4: on a Ready provider, when check_and_refresh reports a refresh and
the persist of the new pair succeeds, inject adopts the new pair, issues
exactly one persist call carrying the new pair, installs the new access
token, and a following inject whose check reports no refresh installs the
same new access token. -/
theorem c4_refresh_adopts_and_persists (ex0 ex1 : Exchange) (host cid : String)
    (st : OAuthPersistence) (scopes : List String)
    (p : DatabricksOAuthProvider) (h : Headers) (a1 r1 : String)
    (hReady : Ready ex0 host (some st) cid scopes p)
    (hc : ex1.check_and_refresh p.hostname p.client_id p.access_token p.refresh_token =
      Except.ok (a1, r1, true))
    (hpersist : st.persist (OAuthToken.mk a1 r1) = Except.ok ()) :
    (DatabricksOAuthProvider.add_headers ex1 p h).1 = Except.ok () ∧
    (DatabricksOAuthProvider.add_headers ex1 p h).2.1.access_token = some a1 ∧
    (DatabricksOAuthProvider.add_headers ex1 p h).2.1.refresh_token = some r1 ∧
    persistEvents (DatabricksOAuthProvider.add_headers ex1 p h).2.2.2 =
      [OAuthToken.mk a1 r1] ∧
    (DatabricksOAuthProvider.add_headers ex1 p h).2.2.1 "Authorization" =
      some ("Bearer " ++ a1) ∧
    (∀ (ex2 : Exchange) (h2 : Headers) (x y : String),
      ex2.check_and_refresh p.hostname p.client_id (some a1) (some r1) =
        Except.ok (x, y, false) →
      (DatabricksOAuthProvider.add_headers ex2
        (DatabricksOAuthProvider.add_headers ex1 p h).2.1 h2).2.2.1 "Authorization" =
        some ("Bearer " ++ a1)) := by
  have hp : p.oauth_persistence = some st :=
    init_ok_pers ex0 host (some st) cid scopes p hReady
  have hstep : DatabricksOAuthProvider.add_headers ex1 p h =
      (Except.ok (),
       { p with access_token := some a1, refresh_token := some r1 },
       setHeader h "Authorization" ("Bearer " ++ a1),
       [Event.checkRefresh p.hostname p.client_id p.access_token p.refresh_token,
        Event.persistStore (OAuthToken.mk a1 r1)]) := by
    unfold DatabricksOAuthProvider.add_headers update_token_if_expired
    rw [hc]
    simp [hp, hpersist, optStr]
  rw [hstep]
  refine ⟨rfl, rfl, rfl, rfl, ?_, ?_⟩
  · simp [setHeader]
  · intro ex2 h2 x y hc2
    rw [add_headers_no_refresh ex2
      { p with access_token := some a1, refresh_token := some r1 } h2 x y hc2]
    simp [setHeader, optStr]

def c4st : OAuthPersistence :=
  { read := Except.ok (some (OAuthToken.mk "a0" "r0"))
    persist := fun _ => Except.ok () }

def c4ex0 : Exchange :=
  { get_tokens := fun _ _ _ => Except.error "unused"
    check_and_refresh := fun _ _ _ _ => Except.ok ("a0", "r0", false) }

def c4ex1 : Exchange :=
  { get_tokens := fun _ _ _ => Except.error "unused"
    check_and_refresh := fun _ _ _ _ => Except.ok ("a1", "r1", true) }

def c4p : DatabricksOAuthProvider :=
  { hostname := "https://host.com/"
    scopes_as_str := "sc"
    oauth_persistence := some c4st
    client_id := "cid"
    access_token := some "a0"
    refresh_token := some "r0" }

def c4h : Headers := fun _ => none

theorem c4_refresh_adopts_and_persists_witness :
    Ready c4ex0 "host.com" (some c4st) "cid" ["sc"] c4p ∧
    c4ex1.check_and_refresh c4p.hostname c4p.client_id c4p.access_token
      c4p.refresh_token = Except.ok ("a1", "r1", true) ∧
    c4st.persist (OAuthToken.mk "a1" "r1") = Except.ok () ∧
    ((DatabricksOAuthProvider.add_headers c4ex1 c4p c4h).1 = Except.ok () ∧
     (DatabricksOAuthProvider.add_headers c4ex1 c4p c4h).2.1.access_token = some "a1" ∧
     (DatabricksOAuthProvider.add_headers c4ex1 c4p c4h).2.1.refresh_token = some "r1" ∧
     persistEvents (DatabricksOAuthProvider.add_headers c4ex1 c4p c4h).2.2.2 =
       [OAuthToken.mk "a1" "r1"] ∧
     (DatabricksOAuthProvider.add_headers c4ex1 c4p c4h).2.2.1 "Authorization" =
       some ("Bearer " ++ "a1") ∧
     (∀ (ex2 : Exchange) (h2 : Headers) (x y : String),
       ex2.check_and_refresh c4p.hostname c4p.client_id (some "a1") (some "r1") =
         Except.ok (x, y, false) →
       (DatabricksOAuthProvider.add_headers ex2
         (DatabricksOAuthProvider.add_headers c4ex1 c4p c4h).2.1 h2).2.2.1
           "Authorization" = some ("Bearer " ++ "a1"))) :=
  ⟨rfl, rfl, rfl,
   c4_refresh_adopts_and_persists c4ex0 c4ex1 "host.com" "cid" c4st ["sc"]
     c4p c4h "a1" "r1" rfl rfl rfl⟩

def c1st : OAuthPersistence :=
  { read := Except.ok (some (OAuthToken.mk "a0" "r0"))
    persist := fun t => if t.access_token = "a1" then Except.error "boom"
      else Except.ok () }

def c1ex0 : Exchange :=
  { get_tokens := fun _ _ _ => Except.error "unused"
    check_and_refresh := fun _ _ _ _ => Except.ok ("a0", "r0", false) }

def c1ex1 : Exchange :=
  { get_tokens := fun _ _ _ => Except.error "unused"
    check_and_refresh := fun _ _ _ _ => Except.ok ("a1", "r1", true) }

def c1p : DatabricksOAuthProvider :=
  { hostname := "https://host.com/"
    scopes_as_str := "sc"
    oauth_persistence := some c1st
    client_id := "cid"
    access_token := some "a0"
    refresh_token := some "r0" }

def c1h : Headers := fun _ => none

/-- C1 is false as stated: on this Ready provider the check succeeds with a
refresh and the subsequent persist raises; the failure propagates to the
caller of inject, but the in-memory access token is no longer at its
pre-call value. -/
theorem c1_counterexample :
    Ready c1ex0 "host.com" (some c1st) "cid" ["sc"] c1p ∧
    (DatabricksOAuthProvider.add_headers c1ex1 c1p c1h).1 = Except.error "boom" ∧
    c1p.access_token = some "a0" ∧
    (DatabricksOAuthProvider.add_headers c1ex1 c1p c1h).2.1.access_token = some "a1" ∧
    (DatabricksOAuthProvider.add_headers c1ex1 c1p c1h).2.1.access_token ≠
      c1p.access_token :=
  ⟨rfl, rfl, rfl, rfl, by decide⟩

/-- C1 (amended): any failure during the expiry-check-and-refresh step of
inject propagates to the caller and the header mapping is untouched; when
check_and_refresh itself raises, the in-memory pair is left exactly at its
pre-call value; when the persist after a reported refresh raises, the
in-memory pair holds the complete freshly refreshed pair (both fields were
updated together, never a mix of old and new). -/
theorem c1_failure_propagation (ex0 ex1 : Exchange) (host cid : String)
    (pers : Option OAuthPersistence) (scopes : List String)
    (p : DatabricksOAuthProvider) (h : Headers)
    (hReady : Ready ex0 host pers cid scopes p) :
    (∀ e, ex1.check_and_refresh p.hostname p.client_id p.access_token
        p.refresh_token = Except.error e →
      DatabricksOAuthProvider.add_headers ex1 p h =
        (Except.error e, p, h,
         [Event.checkRefresh p.hostname p.client_id p.access_token
            p.refresh_token])) ∧
    (∀ (a1 r1 : String) (e : Err) (st : OAuthPersistence), pers = some st →
      ex1.check_and_refresh p.hostname p.client_id p.access_token
        p.refresh_token = Except.ok (a1, r1, true) →
      st.persist (OAuthToken.mk a1 r1) = Except.error e →
      (DatabricksOAuthProvider.add_headers ex1 p h).1 = Except.error e ∧
      (DatabricksOAuthProvider.add_headers ex1 p h).2.1.access_token = some a1 ∧
      (DatabricksOAuthProvider.add_headers ex1 p h).2.1.refresh_token = some r1 ∧
      (DatabricksOAuthProvider.add_headers ex1 p h).2.2.1 = h) := by
  constructor
  · intro e hce
    unfold DatabricksOAuthProvider.add_headers update_token_if_expired
    rw [hce]
  · intro a1 r1 e st hpers hce hper
    have hp : p.oauth_persistence = some st := by
      rw [init_ok_pers ex0 host pers cid scopes p hReady]
      exact hpers
    unfold DatabricksOAuthProvider.add_headers update_token_if_expired
    rw [hce]
    simp [hp, hper]

def c1wst : OAuthPersistence :=
  { read := Except.ok (some (OAuthToken.mk "a0" "r0"))
    persist := fun _ => Except.error "disk full" }

def c1wex0 : Exchange :=
  { get_tokens := fun _ _ _ => Except.error "unused"
    check_and_refresh := fun _ _ _ _ => Except.ok ("a0", "r0", false) }

def c1wex1 : Exchange :=
  { get_tokens := fun _ _ _ => Except.error "unused"
    check_and_refresh := fun _ _ _ _ => Except.ok ("a1", "r1", true) }

def c1wp : DatabricksOAuthProvider :=
  { hostname := "https://host.com/"
    scopes_as_str := "sc"
    oauth_persistence := some c1wst
    client_id := "cid"
    access_token := some "a0"
    refresh_token := some "r0" }

theorem c1_failure_propagation_witness :
    Ready c1wex0 "host.com" (some c1wst) "cid" ["sc"] c1wp ∧
    some c1wst = some c1wst ∧
    c1wex1.check_and_refresh c1wp.hostname c1wp.client_id c1wp.access_token
      c1wp.refresh_token = Except.ok ("a1", "r1", true) ∧
    c1wst.persist (OAuthToken.mk "a1" "r1") = Except.error "disk full" ∧
    ((DatabricksOAuthProvider.add_headers c1wex1 c1wp c1h).1 =
        Except.error "disk full" ∧
     (DatabricksOAuthProvider.add_headers c1wex1 c1wp c1h).2.1.access_token =
        some "a1" ∧
     (DatabricksOAuthProvider.add_headers c1wex1 c1wp c1h).2.1.refresh_token =
        some "r1" ∧
     (DatabricksOAuthProvider.add_headers c1wex1 c1wp c1h).2.2.1 = c1h) :=
  ⟨rfl, rfl, rfl, rfl,
   (c1_failure_propagation c1wex0 c1wex1 "host.com" "cid" (some c1wst) ["sc"]
     c1wp c1h rfl).2 "a1" "r1" "disk full" c1wst rfl rfl rfl⟩

end DBSql
